import Mathlib

/-!
Shallow embedding of `scripts/decode_cap.py` (CHERIoT compressed-capability
decoder).  Python arbitrary-precision integers are modelled as `Nat` where the
source value is provably non-negative (all masked fields) and as `Int` where
the source can go negative (the bounds correction arithmetic).  Python
`x >> k` on a non-negative value is `x / 2^k`, `x & (2^k - 1)` is `x % 2^k`,
and `x << k` on an `Int` is `x * 2^k`.  Python `if`-conditions test
truthiness of the integer (non-zero), modelled by `truthy`.
-/

namespace DecodeCap

/-- Python truthiness of an integer: non-zero is truthy. -/
def truthy (n : Nat) : Bool := n != 0

/-- Raw bit-fields of the metadata word, as extracted by lines 15-21 of
`decode_cap.py`. -/
structure RawFields where
  B : Nat
  T : Nat
  E : Nat
  otype : Nat
  perms : Nat
  R : Nat
  v : Nat
deriving Repr, DecidableEq

/-- Field extraction.
`B = meta & 0x1ff`; `T = (meta >> 9) & 0x1ff`; `E = (meta >> 18) & 0xf`;
`otype = (meta >> 22) & 0x7`; `perms = (meta >> 25) & 0x3f`;
`R = (meta >> 31) & 0x1`; `v = (meta >> 32) & 0x1`.
Shifts and masks are written as division/modulus by the literal powers of two
(512 = 2^9, 262144 = 2^18, 4194304 = 2^22, 33554432 = 2^25,
2147483648 = 2^31, 4294967296 = 2^32). -/
def extractFields (meta : Nat) : RawFields :=
  ⟨meta % 512,
   meta / 512 % 512,
   meta / 262144 % 16,
   meta / 4194304 % 8,
   meta / 33554432 % 64,
   meta / 2147483648 % 2,
   meta / 4294967296 % 2⟩

/-- The decoded permission set: the 12 flags the script initialises to 0 and
then assigns in the priority chain.  Flags are 0/1 `Nat`s exactly as in the
source. -/
structure PermSet where
  gl : Nat
  ld : Nat
  sd : Nat
  mc : Nat
  sl : Nat
  lm : Nat
  lg : Nat
  sr : Nat
  ex : Nat
  u0 : Nat
  se : Nat
  us : Nat
deriving Repr, DecidableEq

/-- The `if`/`elif` permission chain of `decode_cap.py` lines 34-46, on the
already-extracted bits, with `GL` carried through unchanged.
Field order of the constructor: gl, ld, sd, mc, sl, lm, lg, sr, ex, u0, se, us.
Note the last guard is `not p4 and not 3` in the source: the literal `3` is
truthy, so `!truthy 3` mirrors Python's `not 3` (constantly false).  A chain
with no matching guard leaves every flag at its initial 0, as Python does when
an `if`/`elif` chain without `else` falls through. -/
def permChain (gl p4 p3 p2 p1 p0 : Nat) : PermSet :=
  if truthy p4 && truthy p3 then
    ⟨gl, 1, 1, 1, p2, p1, p0, 0, 0, 0, 0, 0⟩
  else if truthy p4 && !truthy p3 && truthy p2 then
    ⟨gl, 1, 0, 1, 0, p1, p0, 0, 0, 0, 0, 0⟩
  else if truthy p4 && !truthy p3 && !truthy p2 && !truthy p1 && !truthy p0 then
    ⟨gl, 0, 1, 1, 0, 0, 0, 0, 0, 0, 0, 0⟩
  else if truthy p4 && !truthy p3 && !truthy p2 then
    ⟨gl, p1, p0, 0, 0, 0, 0, 0, 0, 0, 0, 0⟩
  else if !truthy p4 && truthy p3 then
    ⟨gl, 1, 0, 1, 0, p1, p0, p2, 1, 0, 0, 0⟩
  else if !truthy p4 && !truthy 3 then
    ⟨gl, 0, 0, 0, 0, 0, 0, 0, 0, p2, p1, p0⟩
  else
    ⟨gl, 0, 0, 0, 0, 0, 0, 0, 0, 0, 0, 0⟩

/-- Permission decoding of the 6-bit `perms` field:
`gl = (perms >> 5) & 1`, `p4 = (perms >> 4) & 1`, ..., `p0 = perms & 1`,
then the priority chain. -/
def decodePerms (perms : Nat) : PermSet :=
  permChain (perms / 32 % 2) (perms / 16 % 2) (perms / 8 % 2)
    (perms / 4 % 2) (perms / 2 % 2) (perms % 2)

/-- Effective exponent, line 69: `e = E if E != 15 else 24`. -/
def effectiveE (E : Nat) : Nat := if E != 15 then E else 24

/-- Bounds decompression, lines 71-80 of `decode_cap.py`, returning
`(base, top)` as integers (the Python values are arbitrary-precision and the
corrections can drive them negative):
`a_top = addr >> (e+9)`; `a_mid = (addr >> e) & 0x1ff`;
`a_hi = 1 if a_mid < B else 0`; `t_hi = 1 if T < B else 0`;
`c_b = -a_hi`; `c_t = t_hi - a_hi`;
`base = ((a_top + c_b) << 9 + B) << e`; `top = ((a_top + c_t) << 9 + T) << e`. -/
def decodeBounds (addr T B E : Nat) : Int × Int :=
  let e := effectiveE E
  let a_top : Nat := addr / 2 ^ (e + 9)
  let a_mid : Nat := addr / 2 ^ e % 512
  let a_hi : Int := if a_mid < B then 1 else 0
  let t_hi : Int := if T < B then 1 else 0
  let c_b : Int := -a_hi
  let c_t : Int := t_hi - a_hi
  let a_top_base : Int := (a_top : Int) + c_b
  let a_top_top : Int := (a_top : Int) + c_t
  let base : Int := (a_top_base * 512 + (B : Int)) * 2 ^ e
  let top : Int := (a_top_top * 512 + (T : Int)) * 2 ^ e
  (base, top)

/-- Object-type normalisation, lines 67-68:
`if otype != 0 and not EX: otype += 8` (with `EX` the 0/1 flag from the
permission chain, tested by truthiness). -/
def shiftOtype (otype ex : Nat) : Nat :=
  if truthy otype && !truthy ex then otype + 8 else otype

/-- The `otypes` dictionary of lines 83-91, as an association list in source
order. -/
def otypes : List (Nat × String) :=
  [(0, "unsealed"),
   (1, "IRQ inherit forward sentry"),
   (2, "IRQ disable forward sentry"),
   (3, "IRQ enable forward sentry"),
   (4, "IRQ disable return sentry"),
   (5, "IRQ enable return sentry")]

/-- Membership-plus-lookup on the `otypes` table: `otypes[o]` when present,
`none` otherwise. -/
def otypesFind (o : Nat) : Option String := otypes.lookup o

/-- Python dictionary subscript `otypes[o]`: raises `KeyError` when the key is
absent, modelled as `Except`. -/
def dictAccess (o : Nat) : Except String String :=
  match otypesFind o with
  | some s => Except.ok s
  | none => Except.error "KeyError"

/-- Line 92: `otype_str = str(otype) + (f' ({otypes[otype]})' if otype in
otypes else '')` — the guarded dictionary access, with the unguarded subscript
kept fallible so that totality of this stage is a real statement. -/
def otypeStrE (o : Nat) : Except String String :=
  if (otypesFind o).isSome then do
    let s ← dictAccess o
    pure (toString o ++ " (" ++ s ++ ")")
  else
    pure (toString o)

/-- The full decoded capability: permission set, bounds, printed length
(`top - base`), normalised object type, and whether the reserved-bit warning
was printed (`if R != 0`). -/
structure Decoded where
  perms : PermSet
  base : Int
  top : Int
  length : Int
  otype : Nat
  warning : Bool
deriving Repr, DecidableEq

/-- The whole decode pipeline of `decode_cap.py` lines 15-94 on an
(address, metadata) pair: extract fields, decode permissions, normalise the
object type using the decoded `EX`, decompress bounds. -/
def decodeCap (addr meta : Nat) : Decoded :=
  let f := extractFields meta
  let P := decodePerms f.perms
  let o := shiftOtype f.otype P.ex
  let bt := decodeBounds addr f.T f.B f.E
  ⟨P, bt.1, bt.2, bt.2 - bt.1, o, truthy f.R⟩

/-! Projection lemmas for the pipeline, used to reason stage by stage. -/

lemma decodeCap_perms (addr meta : Nat) :
    (decodeCap addr meta).perms = decodePerms (extractFields meta).perms := rfl

lemma decodeCap_base (addr meta : Nat) :
    (decodeCap addr meta).base
      = (decodeBounds addr (extractFields meta).T (extractFields meta).B
          (extractFields meta).E).1 := rfl

lemma decodeCap_top (addr meta : Nat) :
    (decodeCap addr meta).top
      = (decodeBounds addr (extractFields meta).T (extractFields meta).B
          (extractFields meta).E).2 := rfl

lemma decodeCap_length (addr meta : Nat) :
    (decodeCap addr meta).length
      = (decodeBounds addr (extractFields meta).T (extractFields meta).B
          (extractFields meta).E).2
        - (decodeBounds addr (extractFields meta).T (extractFields meta).B
            (extractFields meta).E).1 := rfl

lemma decodeCap_otype (addr meta : Nat) :
    (decodeCap addr meta).otype
      = shiftOtype (extractFields meta).otype
          (decodePerms (extractFields meta).perms).ex := rfl

lemma decodeCap_warning (addr meta : Nat) :
    (decodeCap addr meta).warning = truthy (extractFields meta).R := rfl

lemma extractFields_B (meta : Nat) : (extractFields meta).B = meta % 512 := rfl

lemma extractFields_T (meta : Nat) :
    (extractFields meta).T = meta / 512 % 512 := rfl

lemma extractFields_E (meta : Nat) :
    (extractFields meta).E = meta / 262144 % 16 := rfl

lemma extractFields_otype (meta : Nat) :
    (extractFields meta).otype = meta / 4194304 % 8 := rfl

lemma extractFields_perms (meta : Nat) :
    (extractFields meta).perms = meta / 33554432 % 64 := rfl

lemma extractFields_R (meta : Nat) :
    (extractFields meta).R = meta / 2147483648 % 2 := rfl

/-- The `gl` argument is carried through every branch of the permission chain
untouched: all other flags are independent of it. -/
lemma permChain_gl_irrel (g g' p4 p3 p2 p1 p0 : Nat) :
    (permChain g p4 p3 p2 p1 p0).ld = (permChain g' p4 p3 p2 p1 p0).ld
    ∧ (permChain g p4 p3 p2 p1 p0).sd = (permChain g' p4 p3 p2 p1 p0).sd
    ∧ (permChain g p4 p3 p2 p1 p0).mc = (permChain g' p4 p3 p2 p1 p0).mc
    ∧ (permChain g p4 p3 p2 p1 p0).sl = (permChain g' p4 p3 p2 p1 p0).sl
    ∧ (permChain g p4 p3 p2 p1 p0).lm = (permChain g' p4 p3 p2 p1 p0).lm
    ∧ (permChain g p4 p3 p2 p1 p0).lg = (permChain g' p4 p3 p2 p1 p0).lg
    ∧ (permChain g p4 p3 p2 p1 p0).sr = (permChain g' p4 p3 p2 p1 p0).sr
    ∧ (permChain g p4 p3 p2 p1 p0).ex = (permChain g' p4 p3 p2 p1 p0).ex
    ∧ (permChain g p4 p3 p2 p1 p0).u0 = (permChain g' p4 p3 p2 p1 p0).u0
    ∧ (permChain g p4 p3 p2 p1 p0).se = (permChain g' p4 p3 p2 p1 p0).se
    ∧ (permChain g p4 p3 p2 p1 p0).us = (permChain g' p4 p3 p2 p1 p0).us := by
  unfold permChain
  cases h4 : truthy p4 <;> cases h3 : truthy p3 <;> cases h2 : truthy p2 <;>
    cases h1 : truthy p1 <;> cases h0 : truthy p0 <;>
      simp [h4, h3, h2, h1, h0, truthy]

/-- Claim C1: the source's fallback permission branch is guarded by
`not p4 and not 3`, and Python's `not 3` is constantly `False`, so the branch
is dead code: for `perms = 0b000100` (p4 = p3 = 0, p2 = 1) and
`perms = 0b000111` (p2 = p1 = p0 = 1) every flag stays 0, instead of
`U0 = p2, SE = p1, US = p0` as the specified fallback rule requires, and no
rule of the six-rule table fires on those patterns. -/
theorem fallback_branch_never_fires :
    decodePerms 4 = ⟨0, 0, 0, 0, 0, 0, 0, 0, 0, 0, 0, 0⟩
    ∧ decodePerms 7 = ⟨0, 0, 0, 0, 0, 0, 0, 0, 0, 0, 0, 0⟩ := by decide

/-- Claim C3: the object type used for classification is the raw `otype` when
`otype = 0` or `EX` is truthy, and `otype + 8` otherwise; the table maps 0 to
unsealed, 1..5 to the five sentry labels and everything else to no label; in
the full pipeline, `otype = 2` with `EX` false classifies as 10 (no label)
and `otype = 2` with `EX` true (perms `0b001000`) keeps raw 2. -/
theorem otype_classification :
    (∀ o ex : Nat, shiftOtype o ex = if o = 0 ∨ ex ≠ 0 then o else o + 8)
    ∧ (∀ o : Nat, otypesFind o =
        if o = 0 then some "unsealed"
        else if o = 1 then some "IRQ inherit forward sentry"
        else if o = 2 then some "IRQ disable forward sentry"
        else if o = 3 then some "IRQ enable forward sentry"
        else if o = 4 then some "IRQ disable return sentry"
        else if o = 5 then some "IRQ enable return sentry"
        else none)
    ∧ (decodeCap 0 8388608).otype = 10
    ∧ otypesFind 10 = none
    ∧ (decodeCap 0 276824064).otype = 2
    ∧ otypesFind 2 = some "IRQ disable forward sentry" := by
  refine ⟨?_, ?_, by decide, by decide, by decide, by decide⟩
  · intro o ex
    unfold shiftOtype truthy
    by_cases ho : o = 0 <;> by_cases he : ex = 0 <;> simp [ho, he]
  · intro o
    rcases Nat.lt_or_ge o 6 with h | h
    · interval_cases o <;> decide
    · have e0 : (o == 0) = false := by rw [beq_eq_false_iff_ne]; omega
      have e1 : (o == 1) = false := by rw [beq_eq_false_iff_ne]; omega
      have e2 : (o == 2) = false := by rw [beq_eq_false_iff_ne]; omega
      have e3 : (o == 3) = false := by rw [beq_eq_false_iff_ne]; omega
      have e4 : (o == 4) = false := by rw [beq_eq_false_iff_ne]; omega
      have e5 : (o == 5) = false := by rw [beq_eq_false_iff_ne]; omega
      simp only [otypesFind, otypes, List.lookup, e0, e1, e2, e3, e4, e5]
      rw [if_neg (by omega), if_neg (by omega), if_neg (by omega),
        if_neg (by omega), if_neg (by omega), if_neg (by omega)]

/-- Claim C4: the end-to-end example: address `0x00010000`, metadata with
`E = 0, T = 0x010, B = 0, perms = 0b011000, otype = 0, tag = 1, reserved = 0`
(i.e. `meta = 0x130002000`) decodes to base `0x10000`, top `0x10010`, length
`0x10`, permission flags LD, SD, MC set and all others clear, object type 0
(unsealed). -/
theorem end_to_end_example :
    decodeCap 0x00010000 0x130002000
      = ⟨⟨0, 1, 1, 1, 0, 0, 0, 0, 0, 0, 0, 0⟩, 0x10000, 0x10010, 0x10, 0, false⟩
    ∧ otypesFind 0 = some "unsealed" := by decide

/-- Claim C5: the effective exponent is 24 exactly when `E = 15` and `E`
otherwise, and the all-zero input (`E = 0, B = 0, T = 0, address = 0`)
decodes to `base = top = 0` exactly, both at the bounds stage and through the
whole pipeline. -/
theorem exponent_boundary :
    (∀ E : Nat, effectiveE E = if E = 15 then 24 else E)
    ∧ decodeBounds 0 0 0 0 = (0, 0)
    ∧ (decodeCap 0 0).base = 0 ∧ (decodeCap 0 0).top = 0 := by
  refine ⟨?_, by decide, by decide, by decide⟩
  intro E
  unfold effectiveE
  by_cases h : E = 15 <;> simp [h]

/-- Claim C6: on any perms value with `p4 = 1` and `p3 = p2 = p1 = p0 = 0`
the third rule (the more specific one) fires, yielding `SD = MC = 1` and
`LD = 0`, rather than the overlapping fourth rule's `LD = p1, SD = p0`. -/
theorem priority_chain_overlap (perms : Nat)
    (h4 : perms / 16 % 2 = 1) (h3 : perms / 8 % 2 = 0) (h2 : perms / 4 % 2 = 0)
    (h1 : perms / 2 % 2 = 0) (h0 : perms % 2 = 0) :
    (decodePerms perms).sd = 1 ∧ (decodePerms perms).mc = 1
    ∧ (decodePerms perms).ld = 0 := by
  unfold decodePerms permChain
  rw [h4, h3, h2, h1, h0]
  simp [truthy]

/-- Witness for C6 at the concrete permission value `0b010000`. -/
theorem priority_chain_overlap_witness :
    (16 / 16 % 2 = 1 ∧ 16 / 8 % 2 = 0 ∧ 16 / 4 % 2 = 0 ∧ 16 / 2 % 2 = 0
      ∧ 16 % 2 = 0)
    ∧ ((decodePerms 16).sd = 1 ∧ (decodePerms 16).mc = 1
        ∧ (decodePerms 16).ld = 0) :=
  ⟨by decide,
   priority_chain_overlap 16 (by decide) (by decide) (by decide) (by decide)
     (by decide)⟩

/-- Claim C7: the decoder is total: every (address, metadata) pair produces a
decoded result, and the one fallible operation of the reporting stage — the
dictionary subscript `otypes[otype]` guarded by `otype in otypes` — never
raises, for any decoded object type. -/
theorem decode_totality :
    (∀ addr meta : Nat, ∃ d : Decoded, decodeCap addr meta = d)
    ∧ (∀ addr meta : Nat, ∃ s : String,
        otypeStrE (decodeCap addr meta).otype = Except.ok s) := by
  constructor
  · intro addr meta
    exact ⟨decodeCap addr meta, rfl⟩
  · intro addr meta
    rcases h : otypesFind (decodeCap addr meta).otype with _ | s
    · exact ⟨toString (decodeCap addr meta).otype, by simp [otypeStrE, h]; rfl⟩
    · refine ⟨toString (decodeCap addr meta).otype ++ " (" ++ s ++ ")", ?_⟩
      simp [otypeStrE, dictAccess, h]

/-- Claim C2: when the address's 9-bit mid slice has not wrapped relative to
`B` (`addrMid >= B`) but the top mantissa has (`T < B`), the decoded top is
`((addrTop + 1) * 512 + T) * 2 ^ e`, exactly one `2 ^ (e + 9)` block above the
naive uncorrected concatenation `(addrTop * 512 + T) * 2 ^ e`. -/
theorem top_wraparound_correction (addr meta : Nat)
    (hmid : (extractFields meta).B
      ≤ addr / 2 ^ effectiveE (extractFields meta).E % 512)
    (hwrap : (extractFields meta).T < (extractFields meta).B) :
    (decodeCap addr meta).top
      = ((((addr / 2 ^ (effectiveE (extractFields meta).E + 9) : Nat) : Int) + 1)
            * 512 + ((extractFields meta).T : Int))
          * 2 ^ effectiveE (extractFields meta).E
    ∧ (decodeCap addr meta).top
      = (((addr / 2 ^ (effectiveE (extractFields meta).E + 9) : Nat) : Int)
            * 512 + ((extractFields meta).T : Int))
          * 2 ^ effectiveE (extractFields meta).E
        + 2 ^ (effectiveE (extractFields meta).E + 9) := by
  constructor <;>
  · simp only [decodeCap_top, decodeBounds]
    rw [if_pos hwrap, if_neg (Nat.not_lt.mpr hmid)]
    rw [pow_add]
    ring

/-- Witness for C2 at address 256 with metadata 256 (`B = 256, T = 0, E = 0`). -/
theorem top_wraparound_correction_witness :
    ((extractFields 256).B ≤ 256 / 2 ^ effectiveE (extractFields 256).E % 512
      ∧ (extractFields 256).T < (extractFields 256).B)
    ∧ ((decodeCap 256 256).top
        = ((((256 / 2 ^ (effectiveE (extractFields 256).E + 9) : Nat) : Int) + 1)
              * 512 + ((extractFields 256).T : Int))
            * 2 ^ effectiveE (extractFields 256).E
      ∧ (decodeCap 256 256).top
        = (((256 / 2 ^ (effectiveE (extractFields 256).E + 9) : Nat) : Int)
              * 512 + ((extractFields 256).T : Int))
            * 2 ^ effectiveE (extractFields 256).E
          + 2 ^ (effectiveE (extractFields 256).E + 9)) :=
  ⟨⟨by decide, by decide⟩,
   top_wraparound_correction 256 256 (by decide) (by decide)⟩

/-- Every decoded output except the reserved-bit warning, bundled for
comparing two decodes. -/
def dropWarning (d : Decoded) : PermSet × Int × Int × Int × Nat :=
  (d.perms, d.base, d.top, d.length, d.otype)

/-- Claim C8: a set reserved bit (metadata bit 31) only produces the warning;
every other decoded output equals the decode of the same input with the
reserved bit cleared.  The metadata is presented as
`x + r * 2 ^ 31 + y * 2 ^ 32` with `x` the low 31 bits, `r` the reserved bit
and `y` the rest. -/
theorem reserved_bit_nonfatal (addr x y r : Nat)
    (hx : x < 2147483648) (hr : r ≤ 1) :
    (decodeCap addr (x + r * 2147483648 + y * 4294967296)).warning = truthy r
    ∧ dropWarning (decodeCap addr (x + r * 2147483648 + y * 4294967296))
      = dropWarning (decodeCap addr (x + y * 4294967296)) := by
  set m1 := x + r * 2147483648 + y * 4294967296 with hm1
  set m2 := x + y * 4294967296 with hm2
  have hB : m1 % 512 = m2 % 512 := by omega
  have hT : m1 / 512 % 512 = m2 / 512 % 512 := by omega
  have hE : m1 / 262144 % 16 = m2 / 262144 % 16 := by omega
  have hot : m1 / 4194304 % 8 = m2 / 4194304 % 8 := by omega
  have hp : m1 / 33554432 % 64 = m2 / 33554432 % 64 := by omega
  have hR : m1 / 2147483648 % 2 = r := by omega
  constructor
  · simp only [decodeCap_warning, extractFields_R, hR]
  · simp only [dropWarning, decodeCap_perms, decodeCap_base, decodeCap_top,
      decodeCap_length, decodeCap_otype, extractFields_B, extractFields_T,
      extractFields_E, extractFields_otype, extractFields_perms,
      hB, hT, hE, hot, hp]

/-- Witness for C8 with the reserved bit set against it cleared, all other
bits zero. -/
theorem reserved_bit_nonfatal_witness :
    (0 < 2147483648 ∧ 1 ≤ 1)
    ∧ ((decodeCap 0 (0 + 1 * 2147483648 + 0 * 4294967296)).warning = truthy 1
      ∧ dropWarning (decodeCap 0 (0 + 1 * 2147483648 + 0 * 4294967296))
        = dropWarning (decodeCap 0 (0 + 0 * 4294967296))) :=
  ⟨⟨by decide, by decide⟩,
   reserved_bit_nonfatal 0 0 0 1 (by decide) (by decide)⟩

/-- Every decoded output except the `gl` flag, bundled for comparing two
decodes: the other eleven permission flags, base, top, length and object
type. -/
def nonGLView (d : Decoded) :
    (Nat × Nat × Nat × Nat × Nat × Nat × Nat × Nat × Nat × Nat × Nat)
      × (Int × Int × Int) × Nat :=
  ((d.perms.ld, d.perms.sd, d.perms.mc, d.perms.sl, d.perms.lm, d.perms.lg,
    d.perms.sr, d.perms.ex, d.perms.u0, d.perms.se, d.perms.us),
   (d.base, d.top, d.length), d.otype)

/-- Claim C9: toggling bit 5 of the perms field (metadata bit 30, the `GL`
bit) changes no decoded output other than the `GL` flag itself.  The metadata
is presented as `x + g * 2 ^ 30 + y * 2 ^ 31` with `x` the low 30 bits, `g`
the `GL` bit and `y` the rest. -/
theorem gl_bit_independence (addr x y g1 g2 : Nat)
    (hx : x < 1073741824) (h1 : g1 ≤ 1) (h2 : g2 ≤ 1) :
    nonGLView (decodeCap addr (x + g1 * 1073741824 + y * 2147483648))
      = nonGLView (decodeCap addr (x + g2 * 1073741824 + y * 2147483648)) := by
  set m1 := x + g1 * 1073741824 + y * 2147483648 with hm1
  set m2 := x + g2 * 1073741824 + y * 2147483648 with hm2
  have hB : m1 % 512 = m2 % 512 := by omega
  have hT : m1 / 512 % 512 = m2 / 512 % 512 := by omega
  have hE : m1 / 262144 % 16 = m2 / 262144 % 16 := by omega
  have hot : m1 / 4194304 % 8 = m2 / 4194304 % 8 := by omega
  have b4 : m1 / 33554432 % 64 / 16 % 2 = m2 / 33554432 % 64 / 16 % 2 := by
    omega
  have b3 : m1 / 33554432 % 64 / 8 % 2 = m2 / 33554432 % 64 / 8 % 2 := by
    omega
  have b2 : m1 / 33554432 % 64 / 4 % 2 = m2 / 33554432 % 64 / 4 % 2 := by
    omega
  have b1 : m1 / 33554432 % 64 / 2 % 2 = m2 / 33554432 % 64 / 2 % 2 := by
    omega
  have b0 : m1 / 33554432 % 64 % 2 = m2 / 33554432 % 64 % 2 := by omega
  simp only [nonGLView, decodeCap_perms, decodeCap_base, decodeCap_top,
    decodeCap_length, decodeCap_otype, extractFields_B, extractFields_T,
    extractFields_E, extractFields_otype, extractFields_perms, decodePerms,
    hB, hT, hE, hot, b4, b3, b2, b1, b0, Prod.mk.injEq]
  repeat' apply And.intro
  all_goals
    first
      | exact (permChain_gl_irrel _ _ _ _ _ _ _).1
      | exact (permChain_gl_irrel _ _ _ _ _ _ _).2.1
      | exact (permChain_gl_irrel _ _ _ _ _ _ _).2.2.1
      | exact (permChain_gl_irrel _ _ _ _ _ _ _).2.2.2.1
      | exact (permChain_gl_irrel _ _ _ _ _ _ _).2.2.2.2.1
      | exact (permChain_gl_irrel _ _ _ _ _ _ _).2.2.2.2.2.1
      | exact (permChain_gl_irrel _ _ _ _ _ _ _).2.2.2.2.2.2.1
      | exact (permChain_gl_irrel _ _ _ _ _ _ _).2.2.2.2.2.2.2.1
      | exact (permChain_gl_irrel _ _ _ _ _ _ _).2.2.2.2.2.2.2.2.1
      | exact (permChain_gl_irrel _ _ _ _ _ _ _).2.2.2.2.2.2.2.2.2.1
      | exact (permChain_gl_irrel _ _ _ _ _ _ _).2.2.2.2.2.2.2.2.2.2
      | exact congrArg _ ((permChain_gl_irrel _ _ _ _ _ _ _).2.2.2.2.2.2.2.1)
      | trivial

/-- Witness for C9 with the `GL` bit set against it cleared, all other bits
zero. -/
theorem gl_bit_independence_witness :
    (0 < 1073741824 ∧ 1 ≤ 1 ∧ 0 ≤ 1)
    ∧ nonGLView (decodeCap 0 (0 + 1 * 1073741824 + 0 * 2147483648))
      = nonGLView (decodeCap 0 (0 + 0 * 1073741824 + 0 * 2147483648)) :=
  ⟨⟨by decide, by decide, by decide⟩,
   gl_bit_independence 0 0 0 1 0 (by decide) (by decide) (by decide)⟩

/-- Claim C10: the decoded base can be a negative integer, output verbatim:
at address 0 with metadata 1 (`B = 1, T = 0, E = 0`) the base correction is
-1 and the decoder outputs `base = -511`, `top = 0`. -/
theorem negative_base_passthrough :
    (decodeCap 0 1).base = -511 ∧ (decodeCap 0 1).top = 0
    ∧ (decodeCap 0 1).base < 0 := by decide

end DecodeCap
